import Mathlib

/-!
Verification development for the adversarial test-evolution core
(fitness scoring, mutant-based bug detection, fault injection,
sandboxed test execution, and the evolution loop).

Python floats are modelled as rationals (`ℚ`); machine behaviour of the
score arithmetic is exact at the magnitudes involved, so this is faithful
for the sign/bound properties proved here.
-/

namespace AIEvoDev

/-- Shallow embedding of the total-score computation at the end of
`FitnessEvaluator.evaluate_tests` (fitness_evaluator.py, step 3):
start at 0; subtract 100 on a false positive; add pass-rate × 0.5;
if the suite passed the correct function add coverage × 0.3 and subtract
a shortfall penalty of (minCoverage − coverage) × 0.5 when coverage is
below target, otherwise subtract coverage × 0.1; add bug-detection × 0.2
only when the suite passed and no false positive was flagged; finally
clamp below at 0 with `max`. -/
def computeTotalScore (falsePositives : Bool) (passRate coverage bugRate minCoverage : ℚ) : ℚ :=
  let score1 : ℚ := if falsePositives then 0 - 100 else 0
  let score2 : ℚ := score1 + passRate * 0.5
  let score3 : ℚ :=
    if passRate = 100 then
      let withCov := score2 + coverage * 0.3
      if coverage < minCoverage then withCov - (minCoverage - coverage) * 0.5 else withCov
    else
      score2 - coverage * 0.1
  let score4 : ℚ :=
    if passRate = 100 ∧ falsePositives = false then score3 + bugRate * 0.2 else score3
  max 0 score4

end AIEvoDev

namespace AIEvoDev

/-- C1: whenever the false-positive flag is set (the suite failed against the
correct implementation), the clamped total score is exactly 0, for any
in-range pass rate, coverage percentage, bug-detection rate, and any
non-negative minimum-coverage target. -/
theorem computeTotalScore_falsePositive_zero
    (passRate coverage bugRate minCoverage : ℚ)
    (hp : passRate = 0 ∨ passRate = 100)
    (hc0 : 0 ≤ coverage) (hc1 : coverage ≤ 100)
    (hb0 : 0 ≤ bugRate) (hb1 : bugRate ≤ 100)
    (hm : 0 ≤ minCoverage) :
    computeTotalScore true passRate coverage bugRate minCoverage = 0 := by
  unfold computeTotalScore
  rcases hp with hp | hp <;> subst hp <;> simp only [] <;>
    split_ifs with h1 h2 <;>
    exact max_eq_left (by norm_num; linarith)

/-- Witness for C1 at a concrete input. -/
theorem computeTotalScore_falsePositive_zero_witness :
    computeTotalScore true 100 100 100 0 = 0 :=
  computeTotalScore_falsePositive_zero 100 100 100 0 (Or.inr rfl)
    (by norm_num) (by norm_num) (by norm_num) (by norm_num) (by norm_num)

/-- C2: for in-range inputs (coverage and bug-detection rate in [0,100],
pass rate in {0,100}, minimum-coverage target ≥ 0) the total score is
clamped into [0, 100]. -/
theorem computeTotalScore_range
    (falsePositives : Bool) (passRate coverage bugRate minCoverage : ℚ)
    (hp : passRate = 0 ∨ passRate = 100)
    (hc0 : 0 ≤ coverage) (hc1 : coverage ≤ 100)
    (hb0 : 0 ≤ bugRate) (hb1 : bugRate ≤ 100)
    (hm : 0 ≤ minCoverage) :
    0 ≤ computeTotalScore falsePositives passRate coverage bugRate minCoverage ∧
      computeTotalScore falsePositives passRate coverage bugRate minCoverage ≤ 100 := by
  constructor
  · exact le_max_left 0 _
  · unfold computeTotalScore
    rcases hp with hp | hp <;> subst hp <;> cases falsePositives <;>
      simp only [] <;> split_ifs with h1 h2 <;>
      apply max_le (by norm_num) <;> linarith

/-- Witness for C2 at a concrete input. -/
theorem computeTotalScore_range_witness :
    0 ≤ computeTotalScore false 100 70 50 90 ∧
      computeTotalScore false 100 70 50 90 ≤ 100 :=
  computeTotalScore_range false 100 70 50 90 (Or.inr rfl)
    (by norm_num) (by norm_num) (by norm_num) (by norm_num) (by norm_num)

end AIEvoDev

namespace AIEvoDev

/-- The elitism selection rule of `EvolutionOrchestrator.evolve_tests`:
the current best is replaced only when the candidate's total score is
strictly greater (`candidate_fitness["total_score"] > current_best_fitness["total_score"]`). -/
def selectBest (best candidate : ℚ) : ℚ :=
  if candidate > best then candidate else best

/-- Outcome of the external suite generator for one generation
(`TestGeneratorAgent.generate_tests` may raise). -/
inductive GeneratorOutcome where
  | produced (tests : String)
  | raised (msg : String)
deriving DecidableEq

/-- Outcome of the evaluation pipeline for one generation
(`FitnessEvaluator.evaluate_tests` returns a report carrying a total
score, or raises). -/
inductive EvalOutcome where
  | report (score : ℚ)
  | raised (msg : String)
deriving DecidableEq

/-- Environment behaviour for one generation of the loop: what the
generator does, and what the evaluator would do on the produced suite. -/
structure GenBehavior where
  generator : GeneratorOutcome
  evaluator : EvalOutcome
deriving DecidableEq

/-- One entry of `evolution_history`, as appended by `_save_generation_data`:
generation index, a tag standing for the suite text, the recorded total
score (`none` models the empty dict `{}` recorded on a generator error),
and the status string. -/
structure HistEntry where
  generation : Nat
  testsTag : String
  fitness : Option ℚ
  status : String
deriving DecidableEq

/-- Loop state of `evolve_tests`: the current best total score and the
append-only history. -/
structure LoopState where
  best : ℚ
  history : List HistEntry
deriving DecidableEq

/-- One iteration of the `for gen in range(1, max_generations + 1)` body of
`EvolutionOrchestrator.evolve_tests`: a generator exception is caught,
recorded as an `error` entry with an empty report, and the loop continues;
the evaluation call sits outside the `try`, so an evaluator exception
propagates (modelled as `Except.error`); otherwise elitism compares the
candidate's score with the current best. -/
def evolveStep (gen : Nat) (b : GenBehavior) (st : LoopState) : Except String LoopState :=
  match b.generator with
  | .raised _ =>
      .ok { st with history := st.history ++ [⟨gen, "ERROR_GENERATION", none, "error"⟩] }
  | .produced tests =>
      match b.evaluator with
      | .raised m => .error m
      | .report score =>
          if score > st.best then
            .ok ⟨score, st.history ++ [⟨gen, tests, some score, "new_best"⟩]⟩
          else
            .ok ⟨st.best, st.history ++ [⟨gen, tests, some score, "not_best"⟩]⟩

/-- The generation loop of `evolve_tests` from a given generation index:
runs `evolveStep` for each behaviour in order; an uncaught exception
aborts the remaining generations. -/
def evolveLoop (gen : Nat) (bs : List GenBehavior) (st : LoopState) : Except String LoopState :=
  match bs with
  | [] => .ok st
  | b :: rest =>
      match evolveStep gen b st with
      | .error m => .error m
      | .ok st1 => evolveLoop (gen + 1) rest st1

/-- Per-generation event as seen by the best-score bookkeeping: either the
generator failed (best unchanged, loop continues) or a candidate with a
total score was evaluated (elitism applies). -/
inductive GenEvent where
  | genFailure
  | candidate (score : ℚ)

/-- The best-so-far score held after each generation of a run, starting
from the unconditional generation-0 best `best0`. -/
def bestTrace (best0 : ℚ) : List GenEvent → List ℚ
  | [] => []
  | .genFailure :: rest => best0 :: bestTrace best0 rest
  | .candidate c :: rest =>
      let b := selectBest best0 c
      b :: bestTrace b rest

/-- The best-so-far trace including the initial (generation 0) best. -/
def bestFullTrace (best0 : ℚ) (evs : List GenEvent) : List ℚ :=
  best0 :: bestTrace best0 evs

/-- Every entry of a best trace is at least the starting best. -/
theorem bestTrace_le (best0 : ℚ) (evs : List GenEvent) :
    ∀ x ∈ bestTrace best0 evs, best0 ≤ x := by
  induction evs generalizing best0 with
  | nil => intro x hx; simp [bestTrace] at hx
  | cons e rest ih =>
      intro x hx
      cases e with
      | genFailure =>
          simp only [bestTrace, List.mem_cons] at hx
          rcases hx with rfl | hx
          · exact le_refl _
          · exact ih best0 x hx
      | candidate c =>
          simp only [bestTrace, List.mem_cons] at hx
          have hsel : best0 ≤ selectBest best0 c := by
            unfold selectBest; split_ifs with h
            · exact le_of_lt h
            · exact le_refl _
          rcases hx with rfl | hx
          · exact hsel
          · exact le_trans hsel (ih (selectBest best0 c) x hx)

/-- The full best trace is sorted in non-decreasing order. -/
theorem bestFullTrace_sorted (best0 : ℚ) (evs : List GenEvent) :
    (bestFullTrace best0 evs).Sorted (· ≤ ·) := by
  unfold bestFullTrace
  induction evs generalizing best0 with
  | nil => simp [bestTrace]
  | cons e rest ih =>
      cases e with
      | genFailure =>
          simp only [bestTrace]
          exact List.sorted_cons.mpr
            ⟨by
              intro x hx
              simp only [List.mem_cons] at hx
              rcases hx with rfl | hx
              · exact le_refl _
              · exact bestTrace_le best0 rest x hx,
             ih best0⟩
      | candidate c =>
          simp only [bestTrace]
          have hsel : best0 ≤ selectBest best0 c := by
            unfold selectBest; split_ifs with h
            · exact le_of_lt h
            · exact le_refl _
          exact List.sorted_cons.mpr
            ⟨by
              intro x hx
              simp only [List.mem_cons] at hx
              rcases hx with rfl | hx
              · exact hsel
              · exact le_trans hsel (bestTrace_le (selectBest best0 c) rest x hx),
             ih (selectBest best0 c)⟩

/-- C3: across a run, the best-so-far total score is non-decreasing: for
any two generation indices i ≤ j, the best held after generation j is at
least the best held after generation i (index 0 is the unconditional
generation-0 best). -/
theorem bestTrace_monotone (best0 : ℚ) (evs : List GenEvent) (i j : Nat)
    (hij : i ≤ j) (hj : j < (bestFullTrace best0 evs).length) :
    (bestFullTrace best0 evs).get ⟨i, lt_of_le_of_lt hij hj⟩ ≤
      (bestFullTrace best0 evs).get ⟨j, hj⟩ := by
  have hs := bestFullTrace_sorted best0 evs
  rcases lt_or_eq_of_le hij with hlt | rfl
  · exact (List.pairwise_iff_get.mp hs) ⟨i, lt_of_le_of_lt hij hj⟩ ⟨j, hj⟩ hlt
  · exact le_refl _

/-- Witness for C3 at a concrete run. -/
theorem bestTrace_monotone_witness :
    (bestFullTrace 10 [GenEvent.candidate 5, GenEvent.candidate 42]).get
        ⟨0, by simp [bestFullTrace, bestTrace]⟩ ≤
      (bestFullTrace 10 [GenEvent.candidate 5, GenEvent.candidate 42]).get
        ⟨2, by simp [bestFullTrace, bestTrace]⟩ :=
  bestTrace_monotone 10 [GenEvent.candidate 5, GenEvent.candidate 42] 0 2
    (by norm_num) (by simp [bestFullTrace, bestTrace])

end AIEvoDev

namespace AIEvoDev

/-- C7 counterexample: a run where generation 1's suite is produced but the
evaluation pipeline raises. The loop aborts with the uncaught exception:
generation 1 is NOT recorded with status `error`, and generation 2 (which
would have evaluated fine) is never attempted — contradicting the claim
that an evaluation-pipeline exception is recorded and the loop proceeds. -/
theorem evolveLoop_eval_exception_aborts :
    evolveLoop 1
      [⟨GeneratorOutcome.produced "t1", EvalOutcome.raised "boom"⟩,
       ⟨GeneratorOutcome.produced "t2", EvalOutcome.report 100⟩]
      ⟨0, []⟩ = Except.error "boom" := by
  rfl

/-- C7 amended: if the external generator raises, the generation is
recorded in the history with an empty report and status `error` and the
loop proceeds to the next generation; but if the evaluation pipeline
raises (its call sits outside the `try`), the exception propagates and
the run aborts without recording that generation. -/
theorem evolveLoop_failure_handling
    (gen : Nat) (b : GenBehavior) (rest : List GenBehavior) (st : LoopState) :
    (∀ m, b.generator = GeneratorOutcome.raised m →
      evolveLoop gen (b :: rest) st =
        evolveLoop (gen + 1) rest
          { st with history := st.history ++ [⟨gen, "ERROR_GENERATION", none, "error"⟩] }) ∧
    (∀ tests m, b.generator = GeneratorOutcome.produced tests →
      b.evaluator = EvalOutcome.raised m →
      evolveLoop gen (b :: rest) st = Except.error m) := by
  constructor
  · intro m hm
    simp only [evolveLoop, evolveStep, hm]
  · intro tests m ht hm
    simp only [evolveLoop, evolveStep, ht, hm]

/-- Witness for the amended C7 at concrete inputs. -/
theorem evolveLoop_failure_handling_witness :
    (evolveLoop 1 [⟨GeneratorOutcome.raised "llm down", EvalOutcome.report 7⟩] ⟨3, []⟩ =
      evolveLoop 2 [] ⟨3, [⟨1, "ERROR_GENERATION", none, "error"⟩]⟩) ∧
    (evolveLoop 1 [⟨GeneratorOutcome.produced "t", EvalOutcome.raised "oops"⟩] ⟨3, []⟩ =
      Except.error "oops") :=
  ⟨(evolveLoop_failure_handling 1 ⟨GeneratorOutcome.raised "llm down", EvalOutcome.report 7⟩
      [] ⟨3, []⟩).1 "llm down" rfl,
   (evolveLoop_failure_handling 1 ⟨GeneratorOutcome.produced "t", EvalOutcome.raised "oops"⟩
      [] ⟨3, []⟩).2 "t" "oops" rfl rfl⟩

end AIEvoDev

namespace AIEvoDev

/-- Python exceptions relevant to the sandbox operations. -/
inductive PyExc where
  | valueError (msg : String)
  | timeoutExpired
  | fileNotFoundError
  | otherError (msg : String)
deriving DecidableEq

/-- Result of one completed external process invocation. -/
structure Completed where
  returncode : Int
  stdout : String
  stderr : String
deriving DecidableEq

/-- Possible outcomes of one `subprocess.run` invocation: the process
completed, or the call raised (timeout, missing executable, other). -/
inductive SubprocOutcome where
  | completed (c : Completed)
  | timedOut
  | fileNotFound
  | other (msg : String)
deriving DecidableEq

/-- The exception semantics of a bare `subprocess.run` call: a
non-completed outcome raises the corresponding exception. -/
def subprocRun (o : SubprocOutcome) : Except PyExc Completed :=
  match o with
  | .completed c => .ok c
  | .timedOut => .error .timeoutExpired
  | .fileNotFound => .error .fileNotFoundError
  | .other m => .error (.otherError m)

/-- ASCII lower-casing of one character (Python `str.lower` restricted to
the ASCII framework names used here). -/
def lowerChar (c : Char) : Char :=
  if 65 ≤ c.toNat ∧ c.toNat ≤ 90 then Char.ofNat (c.toNat + 32) else c

/-- Python `framework.lower()` on the framework selector. -/
def pyLower (s : String) : String := String.mk (s.data.map lowerChar)

/-- Character-list version of the prefix test (used by the substring
check below). -/
def charsLead : List Char → List Char → Bool
  | [], _ => true
  | a :: as, bs =>
      match bs with
      | [] => false
      | b :: brest => (a == b) && charsLead as brest

/-- `needle in hay` on Python strings: some suffix of `hay` starts with
`needle`. -/
def strContains (hay needle : String) : Bool :=
  (List.range (hay.data.length + 1)).any
    (fun i => charsLead needle.data (hay.data.drop i))

/-- Shallow embedding of `TestingEnvironment.run_tests` (testing_env.py):
dispatch on the lowered framework name; an unrecognised framework raises
`ValueError` before any process is started; for a recognised framework the
external process is invoked and `TimeoutExpired` / `FileNotFoundError` /
any other exception are caught and converted to the failing triple
`(1, "", diagnostic)`. `exec` is the environment: the outcome of invoking
a given command line. -/
def run_tests (exec : List String → SubprocOutcome) (testFilePath : String)
    (framework : String) : Except PyExc (Int × String × String) :=
  if pyLower framework = "pytest" then
    match exec ["pytest", testFilePath, "-q", "--tb=short"] with
    | .completed c => .ok (c.returncode, c.stdout, c.stderr)
    | .timedOut => .ok (1, "", "Error: Test execution timed out.")
    | .fileNotFound => .ok (1, "", "Error: pytest/python executable not found.")
    | .other m => .ok (1, "", "Error running tests: " ++ m)
  else if pyLower framework = "unittest" then
    match exec ["python", "-m", "unittest", testFilePath] with
    | .completed c => .ok (c.returncode, c.stdout, c.stderr)
    | .timedOut => .ok (1, "", "Error: Test execution timed out.")
    | .fileNotFound => .ok (1, "", "Error: pytest/python executable not found.")
    | .other m => .ok (1, "", "Error running tests: " ++ m)
  else
    .error (.valueError ("Unsupported test framework: " ++ framework))

/-- Totals of the structured coverage summary (coverage.json). -/
structure CovTotals where
  covered_lines : Nat
  missing_lines : Nat
deriving DecidableEq

/-- Outcome of `json.load` on the coverage report file. -/
inductive JsonOutcome where
  | parsed (t : CovTotals) (rendered : String)
  | decodeError
  | otherFail (msg : String)
deriving DecidableEq

/-- Environment of one `TestingEnvironment.get_coverage` call: the
outcomes of the three `subprocess.run` invocations (`coverage erase`,
`coverage run`, `coverage json`), whether coverage.json exists afterwards,
and the outcome of reading it. -/
structure CoverageWorld where
  eraseOutcome : SubprocOutcome
  runOutcome : SubprocOutcome
  reportOutcome : SubprocOutcome
  jsonFileExists : Bool
  jsonLoad : JsonOutcome
deriving DecidableEq

/-- Python `round(x, 2)`: rounded to two decimals. -/
def round2 (q : ℚ) : ℚ := (round (q * 100) : ℤ) / 100

/-- Shallow embedding of `TestingEnvironment.get_coverage` (testing_env.py):
the `coverage erase`, `coverage run` (timeout 120s) and `coverage json`
(timeout 30s) invocations are NOT wrapped in try/except, so an exception
from any of them (timeout, missing executable) propagates to the caller;
a completed-but-failing coverage run or report degrades to `(0, diagnostic)`;
a missing or unreadable coverage.json degrades to `(0, diagnostic)`;
otherwise percentage = covered / (covered + missed) × 100 rounded to two
decimals, with the no-executable-lines case degrading to `(0, diagnostic)`. -/
def get_coverage (w : CoverageWorld) : Except PyExc (ℚ × String) := do
  let _ ← subprocRun w.eraseOutcome
  let runResult ← subprocRun w.runOutcome
  if runResult.returncode ≠ 0 ∧ strContains runResult.stderr "Coverage.py warning" = false then
    return (0, "Coverage run failed: " ++ runResult.stderr)
  else
    let reportResult ← subprocRun w.reportOutcome
    if reportResult.returncode ≠ 0 then
      return (0, "Coverage report failed: " ++ reportResult.stderr)
    else if w.jsonFileExists = false then
      return (0, "Coverage JSON report not generated.")
    else
      match w.jsonLoad with
      | .parsed t rendered =>
          let totalLines := t.covered_lines + t.missing_lines
          if totalLines > 0 then
            return (round2 ((t.covered_lines : ℚ) / (totalLines : ℚ) * 100), rendered)
          else
            return (0, "No executable lines found for coverage.")
      | .decodeError => return (0, "Failed to parse coverage JSON report.")
      | .otherFail m => return (0, "Error processing coverage report: " ++ m)

end AIEvoDev

namespace AIEvoDev

/-- A coverage environment in which every stage succeeds. -/
def okCoverageWorld : CoverageWorld :=
  { eraseOutcome := SubprocOutcome.completed ⟨0, "", ""⟩
    runOutcome := SubprocOutcome.completed ⟨0, "", ""⟩
    reportOutcome := SubprocOutcome.completed ⟨0, "", ""⟩
    jsonFileExists := true
    jsonLoad := JsonOutcome.parsed ⟨10, 0⟩ "{}" }

/-- C6 counterexample: calling `run_tests` with the unsupported framework
selector `"jest"` raises `ValueError` to the caller instead of returning a
structured failing result — the `raise` sits before the try/except, so no
handler in `run_tests` catches it. -/
theorem run_tests_unsupported_framework_raises :
    run_tests (fun _ => SubprocOutcome.completed ⟨0, "", ""⟩)
        "test_target_function.py" "jest" =
      Except.error (PyExc.valueError "Unsupported test framework: jest") := by
  rfl

/-- C6 amended: within `run_tests`, a timeout or a missing executable is
caught and surfaced as the failing triple `(1, "", diagnostic)`, and a
malformed coverage JSON report degrades to a `(0, diagnostic)` result; but
an unsupported framework selector raises `ValueError` from `run_tests`,
and a timeout of the coverage-run subprocess propagates `TimeoutExpired`
out of `get_coverage` (those two calls are not guarded by try/except). -/
theorem sandbox_error_surfacing
    (tf fw : String) (exec : List String → SubprocOutcome)
    (hfw1 : pyLower fw ≠ "pytest") (hfw2 : pyLower fw ≠ "unittest") :
    run_tests (fun _ => SubprocOutcome.timedOut) tf "pytest" =
      Except.ok (1, "", "Error: Test execution timed out.") ∧
    run_tests (fun _ => SubprocOutcome.fileNotFound) tf "pytest" =
      Except.ok (1, "", "Error: pytest/python executable not found.") ∧
    get_coverage { okCoverageWorld with jsonLoad := JsonOutcome.decodeError } =
      Except.ok (0, "Failed to parse coverage JSON report.") ∧
    run_tests exec tf fw =
      Except.error (PyExc.valueError ("Unsupported test framework: " ++ fw)) ∧
    get_coverage { okCoverageWorld with runOutcome := SubprocOutcome.timedOut } =
      Except.error PyExc.timeoutExpired := by
  refine ⟨rfl, rfl, rfl, ?_, rfl⟩
  simp only [run_tests, if_neg hfw1, if_neg hfw2]

/-- Witness for the amended C6 at concrete inputs. -/
theorem sandbox_error_surfacing_witness :
    run_tests (fun _ => SubprocOutcome.timedOut) "t.py" "pytest" =
      Except.ok (1, "", "Error: Test execution timed out.") ∧
    run_tests (fun _ => SubprocOutcome.fileNotFound) "t.py" "pytest" =
      Except.ok (1, "", "Error: pytest/python executable not found.") ∧
    get_coverage { okCoverageWorld with jsonLoad := JsonOutcome.decodeError } =
      Except.ok (0, "Failed to parse coverage JSON report.") ∧
    run_tests (fun _ => SubprocOutcome.completed ⟨0, "", ""⟩) "t.py" "mocha" =
      Except.error (PyExc.valueError ("Unsupported test framework: " ++ "mocha")) ∧
    get_coverage { okCoverageWorld with runOutcome := SubprocOutcome.timedOut } =
      Except.error PyExc.timeoutExpired :=
  sandbox_error_surfacing "t.py" "mocha" (fun _ => SubprocOutcome.completed ⟨0, "", ""⟩)
    (by decide) (by decide)

end AIEvoDev

namespace AIEvoDev

/-- `os.makedirs(run_dir, exist_ok=True)` on the modeled filesystem (the
set of existing sandbox directories). -/
def insertDir (fs : List String) (d : String) : List String :=
  if d ∈ fs then fs else d :: fs

/-- `TestingEnvironment.cleanup`: `if os.path.exists(run_dir):
shutil.rmtree(run_dir)` — remove the working directory when present. -/
def cleanup (fs : List String) (runDir : String) : List String :=
  if runDir ∈ fs then fs.filter (fun x => decide (x ≠ runDir)) else fs

/-- The resource bracket of `FitnessEvaluator.evaluate_tests` around one
sandbox: `TestingEnvironment(...)` creates the working directory, the try
block (`setup_environment` / `run_tests` / `get_coverage`, an arbitrary
filesystem transformation that may also raise) runs, and the `finally`
clause calls `cleanup` regardless of whether an exception occurred. The
result is the final filesystem and the exception, if any, that the body
raised. -/
def evalWithEnv (runDir : String)
    (body : List String → List String × Option PyExc)
    (fs : List String) : List String × Option PyExc :=
  let fs1 := insertDir fs runDir
  let r := body fs1
  (cleanup r.1 runDir, r.2)

/-- C9: on every exit path of the evaluation bracket — normal completion
or an exception inside setup, run, or coverage measurement — the sandbox's
private working directory no longer exists in the modeled filesystem. -/
theorem evalWithEnv_removes_run_dir (runDir : String)
    (body : List String → List String × Option PyExc)
    (fs : List String) :
    runDir ∉ (evalWithEnv runDir body fs).1 := by
  simp only [evalWithEnv, cleanup]
  split_ifs with h
  · intro hmem
    rcases List.mem_filter.mp hmem with ⟨_, hne⟩
    simp at hne
  · exact h

end AIEvoDev

namespace AIEvoDev

/-- Outcome of running the suite against one mutant in its sandbox: the
test process completed with an exit code, or the per-mutant evaluation
raised (caught by the per-mutant `except` block, so the mutant stays
counted as attempted but is not counted as detected). -/
inductive RunOutcome where
  | completed (returncode : Int)
  | raised (msg : String)
deriving DecidableEq

/-- One iteration of the fault-injection loop in
`FitnessEvaluator.evaluate_tests`: the rendered mutant text and what
running the suite against it did. -/
structure MutantAttempt where
  mutatedCode : String
  outcome : RunOutcome
deriving DecidableEq

/-- Whether an attempt counted as a detected bug: a completed run with a
non-zero exit status (`if return_code != 0: detected_bugs += 1`). -/
def detects : RunOutcome → Bool
  | .completed rc => rc != 0
  | .raised _ => false

/-- Python whitespace for `str.strip()`. -/
def isPySpace (c : Char) : Bool :=
  c == ' ' || c == '\t' || c == '\n' || c == '\r' ||
    c == Char.ofNat 11 || c == Char.ofNat 12

/-- Python `s.strip()`: remove leading and trailing whitespace. -/
def pyStrip (s : String) : String :=
  String.mk (((s.data.dropWhile isPySpace).reverse.dropWhile isPySpace).reverse)

/-- The no-op test of the loop:
`mutated_function_code.strip() == original_function_code.strip()`. -/
def isNoop (original : String) (a : MutantAttempt) : Bool :=
  pyStrip a.mutatedCode == pyStrip original

/-- The counting pass of the fault-injection loop: fold over the
iterations in order, skipping no-op mutants (`continue`) and otherwise
incrementing `total_faults_attempted` and, on a detecting run,
`detected_bugs`. Returns `(detected_bugs, total_faults_attempted)`. -/
def tallyMutants (original : String) (attempts : List MutantAttempt) : Nat × Nat :=
  attempts.foldl
    (fun acc a =>
      if isNoop original a then acc
      else ((if detects a.outcome then acc.1 + 1 else acc.1), acc.2 + 1))
    (0, 0)

/-- `bug_detection_rate` as computed after the loop:
`(detected_bugs / total_faults_attempted) * 100` if any fault was
attempted, else 0. -/
def bug_detection_rate (original : String) (attempts : List MutantAttempt) : ℚ :=
  let t := tallyMutants original attempts
  if 0 < t.2 then ((t.1 : ℚ) / (t.2 : ℚ)) * 100 else 0

/-- The fold underlying `tallyMutants`, from an arbitrary starting pair:
it adds the count of detecting non-no-op attempts and the count of
non-no-op attempts. -/
theorem tallyMutants_aux (original : String) (attempts : List MutantAttempt)
    (d k : Nat) :
    attempts.foldl
      (fun acc a =>
        if isNoop original a then acc
        else ((if detects a.outcome then acc.1 + 1 else acc.1), acc.2 + 1))
      (d, k) =
    (d + (attempts.filter (fun a => !isNoop original a)).countP (fun a => detects a.outcome),
     k + (attempts.filter (fun a => !isNoop original a)).length) := by
  induction attempts generalizing d k with
  | nil => simp
  | cons a rest ih =>
      simp only [List.foldl_cons, List.filter_cons]
      by_cases hn : isNoop original a = true
      · simp [hn, ih d k]
      · by_cases hd : detects a.outcome = true
        · rw [if_neg hn, if_pos hd, ih (d + 1) (k + 1)]
          simp only [hn, Bool.not_eq_true', Bool.not_false, if_true,
            List.countP_cons, List.length_cons, Prod.mk.injEq]
          constructor <;> first | omega | (simp [hd]; omega) | simp [hd]
        · rw [if_neg hn, if_neg hd, ih d (k + 1)]
          simp only [hn, Bool.not_eq_true', Bool.not_false, if_true,
            List.countP_cons, List.length_cons, Prod.mk.injEq]
          constructor <;> first | omega | (simp [hd]; omega) | simp [hd]

/-- C5: the bug-detection rate excludes no-op mutants (those whose
rendered text equals the original's after stripping) from the
denominator: it equals (detecting attempts among non-no-op attempts) /
(non-no-op attempts) × 100, and it is 0 when no mutant was actually
attempted; moreover inserting a no-op attempt anywhere leaves the rate
unchanged. -/
theorem bug_detection_rate_spec (original : String)
    (attempts pre post : List MutantAttempt) (a : MutantAttempt)
    (ha : isNoop original a = true) :
    (bug_detection_rate original attempts =
      (let attempted := attempts.filter (fun x => !isNoop original x)
       if attempted.length = 0 then 0
       else ((attempted.countP (fun x => detects x.outcome) : ℚ) / (attempted.length : ℚ)) * 100)) ∧
    bug_detection_rate original (pre ++ a :: post) =
      bug_detection_rate original (pre ++ post) := by
  constructor
  · unfold bug_detection_rate tallyMutants
    rw [tallyMutants_aux]
    simp only [Nat.zero_add]
    by_cases h : (attempts.filter (fun x => !isNoop original x)).length = 0
    · simp [h]
    · simp only [h, if_false]
      rw [if_pos (Nat.pos_of_ne_zero h)]
  · unfold bug_detection_rate tallyMutants
    rw [tallyMutants_aux, tallyMutants_aux]
    have hfilter : (pre ++ a :: post).filter (fun x => !isNoop original x) =
        (pre ++ post).filter (fun x => !isNoop original x) := by
      simp [List.filter_append, List.filter_cons, ha]
    rw [hfilter]

/-- Witness for C5 at a concrete input: one real mutant that is detected,
one no-op mutant inserted in the middle. -/
theorem bug_detection_rate_spec_witness :
    (bug_detection_rate "def f(): return 1"
        [⟨"def f(): return 0", RunOutcome.completed 1⟩] =
      (let attempted := [(⟨"def f(): return 0", RunOutcome.completed 1⟩ : MutantAttempt)].filter
          (fun x => !isNoop "def f(): return 1" x)
       if attempted.length = 0 then 0
       else ((attempted.countP (fun x => detects x.outcome) : ℚ) / (attempted.length : ℚ)) * 100)) ∧
    bug_detection_rate "def f(): return 1"
        ([⟨"def f(): return 0", RunOutcome.completed 1⟩] ++
          (⟨"def f(): return 1", RunOutcome.completed 0⟩ : MutantAttempt) :: []) =
      bug_detection_rate "def f(): return 1"
        ([⟨"def f(): return 0", RunOutcome.completed 1⟩] ++ []) :=
  bug_detection_rate_spec "def f(): return 1"
    [⟨"def f(): return 0", RunOutcome.completed 1⟩]
    [⟨"def f(): return 0", RunOutcome.completed 1⟩] []
    ⟨"def f(): return 1", RunOutcome.completed 0⟩ (by decide)

end AIEvoDev

namespace AIEvoDev

/-- Deterministic model of the `random` module's generator state: seeding
with a value yields a state that is a pure function of that value, and
every draw is a pure function of the state (the concrete generator is a
linear congruential step; only seeded determinism matters here). -/
def randNext (s : Nat) : Nat × Nat :=
  let s1 := (s * 1103515245 + 12345) % 2147483648
  (s1 / 65536, s1)

/-- State of the generator right after `random.seed(v)`. -/
def randSeedState (v : Nat) : Nat := v + 2654435769

/-- `random.choice(l)`: pick one element, deterministically from the
state; `none` only on an empty list (where Python would raise). -/
def randChoice {α : Type} (s : Nat) (l : List α) : Option α × Nat :=
  let (v, s1) := randNext s
  (l.get? (v % l.length), s1)

/-- `random.sample(l, k)`: k distinct positions, drawn without
replacement, deterministically from the state. -/
def randSample {α : Type} : Nat → List α → Nat → List α × Nat
  | s, _, 0 => ([], s)
  | s, l, k + 1 =>
      if l.isEmpty then ([], s)
      else
        let (v, s1) := randNext s
        let i := v % l.length
        match l.get? i with
        | none => ([], s1)
        | some x =>
            let (xs, s2) := randSample s1 (l.eraseIdx i) k
            (x :: xs, s2)

/-- Python arithmetic binary operators targeted by `_mutate_binop`. -/
inductive BinOperator where
  | add | sub | mult | div | mod
deriving DecidableEq

/-- Python comparison operators targeted by `_mutate_compare`. -/
inductive CmpOperator where
  | eq | ne | lt | le | gt | ge
deriving DecidableEq

/-- Python boolean operators targeted by `_mutate_boolop`. -/
inductive BoolOperator where
  | andOp | orOp
deriving DecidableEq

mutual

/-- Python expression nodes relevant to the fault injector: `ast.BinOp`,
`ast.Compare` (a left operand with parallel lists of operators and
comparators), `ast.BoolOp`, `ast.UnaryOp(Not)`, constants and names. -/
inductive PyExpr where
  | binOp (left : PyExpr) (op : BinOperator) (right : PyExpr)
  | compare (left : PyExpr) (ops : List CmpOperator) (comparators : PyExprList)
  | boolOp (op : BoolOperator) (values : PyExprList)
  | unaryNot (operand : PyExpr)
  | constInt (value : Int)
  | name (id : String)

/-- Expression sequences (comparators / boolean-operand lists). -/
inductive PyExprList where
  | nil
  | cons (head : PyExpr) (tail : PyExprList)

/-- Python statement nodes relevant to the fault injector: `ast.If`,
`ast.While`, `ast.Return` (with or without a value), plus assignments
and expression statements as pass-through structure. -/
inductive PyStmt where
  | ifStmt (test : PyExpr) (body : PyStmtList) (orelse : PyStmtList)
  | whileStmt (test : PyExpr) (body : PyStmtList)
  | ret (value : PyExpr)
  | retNone
  | assign (target : String) (value : PyExpr)
  | exprStmt (value : PyExpr)

/-- Statement sequences (module bodies and block bodies). -/
inductive PyStmtList where
  | nil
  | cons (head : PyStmt) (tail : PyStmtList)

end

/-- The five operator objects of `_mutate_binop`. -/
def binOperators : List BinOperator :=
  [BinOperator.add, BinOperator.sub, BinOperator.mult, BinOperator.div, BinOperator.mod]

/-- The six comparator objects of `_mutate_compare`. -/
def cmpOperators : List CmpOperator :=
  [CmpOperator.eq, CmpOperator.ne, CmpOperator.lt, CmpOperator.le,
   CmpOperator.gt, CmpOperator.ge]

/-- `_mutate_binop`: replace the operator with a randomly chosen different
member of {add, sub, mult, div, mod}. -/
def mutateBinOperator (op : BinOperator) (rs : Nat) : BinOperator × Nat :=
  let candidates := binOperators.filter (fun o => decide (o ≠ op))
  let (c, rs1) := randChoice rs candidates
  (c.getD op, rs1)

/-- `_mutate_compare`: if the operator list is non-empty, replace its
first element with a randomly chosen different comparator; an empty list
consumes no randomness (the `if node.ops:` guard). -/
def mutateCmpOps (ops : List CmpOperator) (rs : Nat) : List CmpOperator × Nat :=
  match ops with
  | [] => ([], rs)
  | o :: rest =>
      let candidates := cmpOperators.filter (fun c => decide (c ≠ o))
      let (c, rs1) := randChoice rs candidates
      ((c.getD o) :: rest, rs1)

/-- `_mutate_boolop`: swap and/or via `random.choice` over the singleton
list of different boolean operators (one draw is consumed). -/
def mutateBoolOperator (op : BoolOperator) (rs : Nat) : BoolOperator × Nat :=
  let candidates := [BoolOperator.andOp, BoolOperator.orOp].filter (fun o => decide (o ≠ op))
  let (c, rs1) := randChoice rs candidates
  (c.getD op, rs1)

/-- `_mutate_if_condition`: toggle logical negation of the branch guard
(strip a leading `not`, otherwise wrap in `not`). -/
def toggleNot (test : PyExpr) : PyExpr :=
  match test with
  | .unaryNot operand => operand
  | t => .unaryNot t

end AIEvoDev

namespace AIEvoDev

mutual

/-- First pass of `FaultInjector` (`visit`): pre-order enumeration of the
possible fault locations — `BinOp`, `Compare`, `BoolOp`, `If`, `While`
and `Return` nodes — identified by their traversal index (distinct object
identity in the source). Returns the collected location ids and the next
free index. -/
def collectExpr : PyExpr → Nat → List Nat × Nat
  | .binOp l _ r, idx =>
      let p1 := collectExpr l (idx + 1)
      let p2 := collectExpr r p1.2
      (idx :: (p1.1 ++ p2.1), p2.2)
  | .compare l _ cs, idx =>
      let p1 := collectExpr l (idx + 1)
      let p2 := collectExprList cs p1.2
      (idx :: (p1.1 ++ p2.1), p2.2)
  | .boolOp _ vs, idx =>
      let p1 := collectExprList vs (idx + 1)
      (idx :: p1.1, p1.2)
  | .unaryNot o, idx => collectExpr o idx
  | .constInt _, idx => ([], idx)
  | .name _, idx => ([], idx)

def collectExprList : PyExprList → Nat → List Nat × Nat
  | .nil, idx => ([], idx)
  | .cons e rest, idx =>
      let p1 := collectExpr e idx
      let p2 := collectExprList rest p1.2
      (p1.1 ++ p2.1, p2.2)

def collectStmt : PyStmt → Nat → List Nat × Nat
  | .ifStmt t b o, idx =>
      let p1 := collectExpr t (idx + 1)
      let p2 := collectStmtList b p1.2
      let p3 := collectStmtList o p2.2
      (idx :: (p1.1 ++ p2.1 ++ p3.1), p3.2)
  | .whileStmt t b, idx =>
      let p1 := collectExpr t (idx + 1)
      let p2 := collectStmtList b p1.2
      (idx :: (p1.1 ++ p2.1), p2.2)
  | .ret v, idx =>
      let p1 := collectExpr v (idx + 1)
      (idx :: p1.1, p1.2)
  | .retNone, idx => ([idx], idx + 1)
  | .assign _ v, idx => collectExpr v idx
  | .exprStmt v, idx => collectExpr v idx

def collectStmtList : PyStmtList → Nat → List Nat × Nat
  | .nil, idx => ([], idx)
  | .cons s rest, idx =>
      let p1 := collectStmt s idx
      let p2 := collectStmtList rest p1.2
      (p1.1 ++ p2.1, p2.2)

end

/-- Context of the second `FaultInjector` pass: the location ids chosen by
`random.sample` and the requested fault count. -/
structure MutCtx where
  selected : List Nat
  target : Nat

/-- Threaded state of the second pass: the traversal index (mirroring the
first pass), the `faults_injected` counter, and the generator state. -/
structure MutState where
  idx : Nat
  count : Nat
  rs : Nat

/-- Whether the node at index `idx` gets mutated:
`node in locations_to_fault and self.faults_injected < self.target_fault_count`. -/
def hitAt (ctx : MutCtx) (st : MutState) : Prop :=
  st.idx ∈ ctx.selected ∧ st.count < ctx.target

instance (ctx : MutCtx) (st : MutState) : Decidable (hitAt ctx st) := by
  unfold hitAt; infer_instance

mutual

/-- Second pass of `FaultInjector` (`_inject_faults_in_tree`): walk the
original tree in the same order as the first pass; at each selected
location apply the category-specific operator (consuming randomness where
`random.choice` is called) and increment the counter. A `While` location
is counted but — mirroring the dispatch, which has no `While` branch —
left unchanged; a valueless `Return` is counted but unchanged (the
`if node.value:` guard); a mutated `Return`'s original value subtree is
still traversed, as the walk enqueued it before the replacement. -/
def mutateExpr (ctx : MutCtx) : PyExpr → MutState → PyExpr × MutState
  | .binOp l op r, st =>
      if hitAt ctx st then
        let (op1, rs1) := mutateBinOperator op st.rs
        let q1 := mutateExpr ctx l ⟨st.idx + 1, st.count + 1, rs1⟩
        let q2 := mutateExpr ctx r q1.2
        ((PyExpr.binOp q1.1 op1 q2.1), q2.2)
      else
        let q1 := mutateExpr ctx l ⟨st.idx + 1, st.count, st.rs⟩
        let q2 := mutateExpr ctx r q1.2
        ((PyExpr.binOp q1.1 op q2.1), q2.2)
  | .compare l ops cs, st =>
      if hitAt ctx st then
        let (ops1, rs1) := mutateCmpOps ops st.rs
        let q1 := mutateExpr ctx l ⟨st.idx + 1, st.count + 1, rs1⟩
        let q2 := mutateExprList ctx cs q1.2
        ((PyExpr.compare q1.1 ops1 q2.1), q2.2)
      else
        let q1 := mutateExpr ctx l ⟨st.idx + 1, st.count, st.rs⟩
        let q2 := mutateExprList ctx cs q1.2
        ((PyExpr.compare q1.1 ops q2.1), q2.2)
  | .boolOp op vs, st =>
      if hitAt ctx st then
        let (op1, rs1) := mutateBoolOperator op st.rs
        let q1 := mutateExprList ctx vs ⟨st.idx + 1, st.count + 1, rs1⟩
        ((PyExpr.boolOp op1 q1.1), q1.2)
      else
        let q1 := mutateExprList ctx vs ⟨st.idx + 1, st.count, st.rs⟩
        ((PyExpr.boolOp op q1.1), q1.2)
  | .unaryNot o, st =>
      let q := mutateExpr ctx o st
      ((PyExpr.unaryNot q.1), q.2)
  | .constInt v, st => ((PyExpr.constInt v), st)
  | .name s, st => ((PyExpr.name s), st)

def mutateExprList (ctx : MutCtx) : PyExprList → MutState → PyExprList × MutState
  | .nil, st => (PyExprList.nil, st)
  | .cons e rest, st =>
      let q1 := mutateExpr ctx e st
      let q2 := mutateExprList ctx rest q1.2
      ((PyExprList.cons q1.1 q2.1), q2.2)

def mutateStmt (ctx : MutCtx) : PyStmt → MutState → PyStmt × MutState
  | .ifStmt t b o, st =>
      if hitAt ctx st then
        let q1 := mutateExpr ctx t ⟨st.idx + 1, st.count + 1, st.rs⟩
        let q2 := mutateStmtList ctx b q1.2
        let q3 := mutateStmtList ctx o q2.2
        ((PyStmt.ifStmt (toggleNot q1.1) q2.1 q3.1), q3.2)
      else
        let q1 := mutateExpr ctx t ⟨st.idx + 1, st.count, st.rs⟩
        let q2 := mutateStmtList ctx b q1.2
        let q3 := mutateStmtList ctx o q2.2
        ((PyStmt.ifStmt q1.1 q2.1 q3.1), q3.2)
  | .whileStmt t b, st =>
      if hitAt ctx st then
        let q1 := mutateExpr ctx t ⟨st.idx + 1, st.count + 1, st.rs⟩
        let q2 := mutateStmtList ctx b q1.2
        ((PyStmt.whileStmt q1.1 q2.1), q2.2)
      else
        let q1 := mutateExpr ctx t ⟨st.idx + 1, st.count, st.rs⟩
        let q2 := mutateStmtList ctx b q1.2
        ((PyStmt.whileStmt q1.1 q2.1), q2.2)
  | .ret v, st =>
      if hitAt ctx st then
        let q1 := mutateExpr ctx v ⟨st.idx + 1, st.count + 1, st.rs⟩
        ((PyStmt.ret (PyExpr.constInt 0)), q1.2)
      else
        let q1 := mutateExpr ctx v ⟨st.idx + 1, st.count, st.rs⟩
        ((PyStmt.ret q1.1), q1.2)
  | .retNone, st =>
      if hitAt ctx st then
        (PyStmt.retNone, ⟨st.idx + 1, st.count + 1, st.rs⟩)
      else
        (PyStmt.retNone, ⟨st.idx + 1, st.count, st.rs⟩)
  | .assign tgt v, st =>
      let q1 := mutateExpr ctx v st
      ((PyStmt.assign tgt q1.1), q1.2)
  | .exprStmt v, st =>
      let q1 := mutateExpr ctx v st
      ((PyStmt.exprStmt q1.1), q1.2)

def mutateStmtList (ctx : MutCtx) : PyStmtList → MutState → PyStmtList × MutState
  | .nil, st => (PyStmtList.nil, st)
  | .cons s rest, st =>
      let q1 := mutateStmt ctx s st
      let q2 := mutateStmtList ctx rest q1.2
      ((PyStmtList.cons q1.1 q2.1), q2.2)

end

end AIEvoDev

namespace AIEvoDev

/-- Decimal digits of a natural number (fuel-bounded structural recursion
so that witnesses evaluate in the kernel). -/
def natDigitsAux : Nat → Nat → List Char
  | 0, _ => []
  | _ + 1, 0 => []
  | fuel + 1, n => natDigitsAux fuel (n / 10) ++ [Char.ofNat (48 + n % 10)]

/-- Render a natural number in decimal. -/
def renderNat (n : Nat) : String :=
  if n = 0 then "0" else String.mk (natDigitsAux (n + 1) n)

/-- Render an integer literal. -/
def renderInt : Int → String
  | .ofNat n => renderNat n
  | .negSucc n => "-" ++ renderNat (n + 1)

/-- Surface syntax of the arithmetic operators. -/
def renderBinOperator : BinOperator → String
  | BinOperator.add => "+"
  | BinOperator.sub => "-"
  | BinOperator.mult => "*"
  | BinOperator.div => "/"
  | BinOperator.mod => "%"

/-- Surface syntax of the comparators. -/
def renderCmpOperator : CmpOperator → String
  | CmpOperator.ge => ">="
  | CmpOperator.gt => ">"
  | CmpOperator.le => "<="
  | CmpOperator.lt => "<"
  | CmpOperator.ne => "!="
  | CmpOperator.eq => "=="

/-- Surface syntax of the boolean operators. -/
def renderBoolOperator : BoolOperator → String
  | BoolOperator.andOp => "and"
  | BoolOperator.orOp => "or"

/-- Indentation of `level` blocks (four spaces each). -/
def indentOf : Nat → String
  | 0 => ""
  | n + 1 => "    " ++ indentOf n

mutual

/-- `ast.unparse`, modelled as a deterministic renderer of the tree back
to source text (parenthesised expressions, four-space indentation). The
exact surface form is irrelevant to the claims; only that it is a pure
function of the tree. -/
def renderExpr : PyExpr → String
  | .binOp l op r =>
      "(" ++ renderExpr l ++ " " ++ renderBinOperator op ++ " " ++ renderExpr r ++ ")"
  | .compare l ops cs => "(" ++ renderExpr l ++ renderCompareTail ops cs ++ ")"
  | .boolOp op vs => "(" ++ renderBoolValues op vs ++ ")"
  | .unaryNot o => "(not " ++ renderExpr o ++ ")"
  | .constInt v => renderInt v
  | .name s => s

def renderCompareTail : List CmpOperator → PyExprList → String
  | [], _ => ""
  | _, .nil => ""
  | o :: os, .cons c cs =>
      " " ++ renderCmpOperator o ++ " " ++ renderExpr c ++ renderCompareTail os cs

def renderBoolValues : BoolOperator → PyExprList → String
  | _, .nil => ""
  | _, .cons v .nil => renderExpr v
  | op, .cons v rest =>
      renderExpr v ++ " " ++ renderBoolOperator op ++ " " ++ renderBoolValues op rest

def renderStmt : Nat → PyStmt → String
  | lvl, .ifStmt t b o =>
      indentOf lvl ++ "if " ++ renderExpr t ++ ":\n" ++ renderStmtList (lvl + 1) b ++
        indentOf lvl ++ "else:\n" ++ renderStmtList (lvl + 1) o
  | lvl, .whileStmt t b =>
      indentOf lvl ++ "while " ++ renderExpr t ++ ":\n" ++ renderStmtList (lvl + 1) b
  | lvl, .ret v => indentOf lvl ++ "return " ++ renderExpr v ++ "\n"
  | lvl, .retNone => indentOf lvl ++ "return\n"
  | lvl, .assign tgt v => indentOf lvl ++ tgt ++ " = " ++ renderExpr v ++ "\n"
  | lvl, .exprStmt v => indentOf lvl ++ renderExpr v ++ "\n"

def renderStmtList : Nat → PyStmtList → String
  | _, .nil => ""
  | lvl, .cons s rest => renderStmt lvl s ++ renderStmtList lvl rest

end

/-- Render a whole module body. -/
def pyUnparse (m : PyStmtList) : String := renderStmtList 0 m

/-- `FaultInjector.inject_faults`: collect the possible fault locations
(first pass); if none, return the tree unchanged with 0 faults; otherwise
`random.seed(0)` — discarding the ambient generator state — then sample
`min(target_fault_count, len(locations))` locations without replacement
and run the second (mutation) pass. Returns the mutated tree and the
`faults_injected` counter. -/
def injectFaults (ambient : Nat) (m : PyStmtList) (targetFaultCount : Nat) :
    PyStmtList × Nat :=
  let sites := (collectStmtList m 0).1
  if sites.isEmpty then (m, 0)
  else
    let rs0 := randSeedState 0
    let (chosen, rs1) := randSample rs0 sites (min targetFaultCount sites.length)
    let q := mutateStmtList ⟨chosen, targetFaultCount⟩ m ⟨0, 0, rs1⟩
    (q.1, q.2.count)

/-- A Python `SyntaxError` from `ast.parse`. -/
structure ParseError where
  msg : String
deriving DecidableEq

/-- `inject_simple_fault(code, num_faults)`: parse the code (the parser is
the environment, passed as a function), inject faults, unparse. The
`except SyntaxError` branch returns the ORIGINAL code — the parse failure
is printed but not re-raised, so the function never returns an error
value. `ambient` is the generator state before the call; `random.seed(0)`
inside `inject_faults` makes the result independent of it. -/
def inject_simple_fault (parse : String → Except ParseError PyStmtList)
    (code : String) (numFaults : Nat) (ambient : Nat) : Except ParseError String :=
  match parse code with
  | .error _ => .ok code
  | .ok tree => .ok (pyUnparse (injectFaults ambient tree numFaults).1)

/-- The string actually used by the evaluation loop (the Python function
returns `str`, never raises). -/
def injectedText (parse : String → Except ParseError PyStmtList)
    (code : String) (numFaults : Nat) (ambient : Nat) : String :=
  match inject_simple_fault parse code numFaults ambient with
  | .ok s => s
  | .error _ => code

/-- C4: fault injection is deterministic — for any parser environment and
any two invocations on the same source text with the same requested fault
count, the produced mutated text is identical, whatever the ambient state
of the pseudo-random generator was at each call (the generator is
reseeded with the constant 0 inside `inject_faults`). -/
theorem inject_simple_fault_deterministic
    (parse : String → Except ParseError PyStmtList)
    (code : String) (numFaults : Nat) (s1 s2 : Nat) :
    inject_simple_fault parse code numFaults s1 =
      inject_simple_fault parse code numFaults s2 := rfl

/-- `badParse` stands for `ast.parse` on a syntactically invalid input:
it reports a `SyntaxError`. -/
def badParse : String → Except ParseError PyStmtList :=
  fun _ => .error ⟨"invalid syntax"⟩

/-- C8 counterexample: on a syntactically invalid source, the mutation
attempt does NOT fail with a ParseError — the `except SyntaxError` branch
swallows the error and returns the original code as a normal result. -/
theorem inject_simple_fault_swallows_parse_error :
    inject_simple_fault badParse "def f(:\n    return" 1 0 =
      Except.ok "def f(:\n    return" := rfl

/-- C8 amended: a syntactically invalid source does not surface a
ParseError to the caller: whenever the parse step reports an error,
`inject_simple_fault` catches it and returns the original code unchanged
as a normal (non-error) result; downstream, that unchanged code is then
skipped as a no-op mutant. -/
theorem inject_simple_fault_parse_error_swallowed
    (parse : String → Except ParseError PyStmtList)
    (code : String) (numFaults : Nat) (ambient : Nat) (e : ParseError)
    (hp : parse code = Except.error e) :
    inject_simple_fault parse code numFaults ambient = Except.ok code := by
  unfold inject_simple_fault
  rw [hp]

/-- Witness for the amended C8 at a concrete input. -/
theorem inject_simple_fault_parse_error_swallowed_witness :
    badParse "x +" = Except.error ⟨"invalid syntax"⟩ ∧
      inject_simple_fault badParse "x +" 3 7 = Except.ok "x +" :=
  ⟨rfl, inject_simple_fault_parse_error_swallowed badParse "x +" 3 7
    ⟨"invalid syntax"⟩ rfl⟩

end AIEvoDev

namespace AIEvoDev

/-- The fault-injection loop of `FitnessEvaluator.evaluate_tests`: for
each of the K iterations, call `inject_simple_fault(original, 1)` (with
whatever generator state `ambientAt i` is ambient at that point) and run
the suite against the mutated text. `run` gives the (deterministic)
outcome of running the suite against a given source text. -/
def adversarialAttempts (parse : String → Except ParseError PyStmtList)
    (run : String → RunOutcome) (original : String) (K : Nat)
    (ambientAt : Nat → Nat) : List MutantAttempt :=
  (List.range K).map
    (fun i => ⟨injectedText parse original 1 (ambientAt i),
               run (injectedText parse original 1 (ambientAt i))⟩)

/-- All K iterations produce the same mutated text (the generator is
reseeded with 0 inside each injection), so the attempt list is K copies
of one attempt. -/
theorem adversarialAttempts_replicate (parse : String → Except ParseError PyStmtList)
    (run : String → RunOutcome) (original : String) (K : Nat)
    (ambientAt : Nat → Nat) :
    adversarialAttempts parse run original K ambientAt =
      List.replicate K ⟨injectedText parse original 1 0,
                        run (injectedText parse original 1 0)⟩ := by
  show (List.range K).map
      (fun _ => (⟨injectedText parse original 1 0,
                  run (injectedText parse original 1 0)⟩ : MutantAttempt)) = _
  rw [List.map_const', List.length_range]

/-- `filter` over K copies of one element. -/
theorem filter_replicate_attempt (p : MutantAttempt → Bool) (a : MutantAttempt) (K : Nat) :
    (List.replicate K a).filter p = if p a then List.replicate K a else [] := by
  induction K with
  | zero => simp
  | succ k ih =>
      rw [List.replicate_succ, List.filter_cons, ih]
      by_cases hpa : p a = true
      · simp [hpa, List.replicate_succ]
      · simp [hpa]

/-- C10: within one call of the evaluation pipeline all K fault-injection
iterations yield the same mutated source text (the generator is reseeded
with the constant 0 on every injection), and consequently the resulting
bug-detection rate is exactly 0 or exactly 100 — never a strictly
intermediate value. -/
theorem adversarial_rate_zero_or_hundred
    (parse : String → Except ParseError PyStmtList) (run : String → RunOutcome)
    (original : String) (K : Nat) (ambientAt : Nat → Nat) :
    adversarialAttempts parse run original K ambientAt =
      List.replicate K ⟨injectedText parse original 1 0,
                        run (injectedText parse original 1 0)⟩ ∧
    (bug_detection_rate original (adversarialAttempts parse run original K ambientAt) = 0 ∨
     bug_detection_rate original (adversarialAttempts parse run original K ambientAt) = 100) := by
  refine ⟨adversarialAttempts_replicate parse run original K ambientAt, ?_⟩
  rw [adversarialAttempts_replicate parse run original K ambientAt]
  set a : MutantAttempt :=
    ⟨injectedText parse original 1 0, run (injectedText parse original 1 0)⟩ with ha
  unfold bug_detection_rate tallyMutants
  rw [tallyMutants_aux]
  rw [filter_replicate_attempt]
  by_cases hnoop : isNoop original a = true
  · left
    simp [hnoop]
  · have hfilter : (if (!isNoop original a) = true then List.replicate K a else []) =
        List.replicate K a := by simp [hnoop]
    rw [hfilter]
    rcases Nat.eq_zero_or_pos K with hK | hK
    · left
      simp [hK]
    · by_cases hdet : detects a.outcome = true
      · right
        have hcount : (List.replicate K a).countP (fun x => detects x.outcome) = K := by
          rw [List.countP_eq_length_filter, filter_replicate_attempt]
          simp [hdet]
        simp only [hcount, List.length_replicate, Nat.zero_add]
        rw [if_pos hK]
        have hKne : ((K : ℚ)) ≠ 0 := by
          exact_mod_cast Nat.pos_iff_ne_zero.mp hK
        rw [div_self hKne]
        norm_num
      · left
        have hcount : (List.replicate K a).countP (fun x => detects x.outcome) = 0 := by
          rw [List.countP_eq_length_filter, filter_replicate_attempt]
          simp [hdet]
        simp only [hcount, List.length_replicate, Nat.zero_add]
        rw [if_pos hK]
        norm_num

end AIEvoDev
